import Mathlib

/-!
Verification of the session/auth-token lifecycle and authenticated-request
pipeline of the hostel-booking frontend.

The embedded code comes from:
* `AuthContext` — the `AuthProvider` component: the restore `useEffect`,
  `login`, and `logout`;
* the axios instance — the request interceptor (bearer-token attachment)
  and the response interceptor (401 handling).

`localStorage` is modelled as a record of the three keys the code uses
(`user`, `access_token`, `refresh_token`), each holding an optional string.
Assigning `window.location.href` is modelled as a `Nav` value carrying the
target path; such an assignment is a full document navigation, so the
`fullReload` flag is `true`.

`JSON.parse` / `JSON.stringify` are host builtins, not repository code;
theorems are parametric in a pair `parse : String → ParseOutcome` and
`stringify : User → String`.  `ParseOutcome` distinguishes the three
behaviours of `JSON.parse` the restore effect can observe: throwing on
malformed input, succeeding with the JSON value `null` (so that
`setUser(null)` leaves the user absent while the token is still set), and
succeeding with a non-null value read as a user record.  A small concrete
codec (`demoStringify` / `demoParseJS`) instantiates the parameters in
witnesses.
-/

/-- Role of a user, from the `User` interface: `'student' | 'provider' | 'administrator'`. -/
inductive Role where
  | student
  | provider
  | administrator
deriving DecidableEq, Repr

/-- The `User` interface: `id`, `username`, `email`, `role`. -/
structure User where
  id : Int
  username : String
  email : String
  role : Role
deriving DecidableEq, Repr

/-- The three `localStorage` keys the code reads and writes
(`user`, `access_token`, `refresh_token`); `none` models an absent key
(`getItem` returning `null`). -/
structure Store where
  user : Option String
  access_token : Option String
  refresh_token : Option String
deriving DecidableEq, Repr

/-- JS truthiness of a `localStorage.getItem` result: `null` and the empty
string are falsy, every other string is truthy. -/
def truthy : Option String → Bool
  | none => false
  | some s => !(s == "")

/-- In-memory state of `AuthProvider`: `user`, `token`, `isLoading`. -/
structure AuthState where
  user : Option User
  token : Option String
  isLoading : Bool
deriving DecidableEq, Repr

/-- The `useState` initial values: `user = null`, `token = null`, `isLoading = true`. -/
def initialAuthState : AuthState :=
  { user := none, token := none, isLoading := true }

/-- A navigation caused by assigning `window.location.href`; such an
assignment performs a full document load, hence `fullReload := true`. -/
structure Nav where
  path : String
  fullReload : Bool
deriving DecidableEq, Repr

/-- Model of the statement `window.location.href = p`. -/
def hrefAssign (p : String) : Nav :=
  { path := p, fullReload := true }

/-- Outcome of `JSON.parse` on a persisted user entry: it can throw
(malformed input), succeed with the JSON value `null` (input `"null"`), or
succeed with a non-null value, read as a user record. -/
inductive ParseOutcome where
  | throws
  | nullVal
  | object (u : User)
deriving DecidableEq, Repr

/-- The restore `useEffect` of `AuthProvider`: reads `user` and
`access_token`; when both are truthy it runs
`setUser(JSON.parse(savedUser)); setToken(savedToken)` inside a `try` —
a non-null parse sets `user` and `token`, a `null` parse sets the token
while `setUser(null)` leaves the user absent, and a parse exception removes
all three keys; in every case it finally sets `isLoading` to `false`. -/
def restoreEffect (parse : String → ParseOutcome) (st : AuthState) (s : Store) :
    AuthState × Store :=
  let savedUser := s.user
  let savedToken := s.access_token
  match savedUser, savedToken with
  | some uStr, some tok =>
    if !(uStr == "") && !(tok == "") then
      match parse uStr with
      | ParseOutcome.object u =>
        ({ st with user := some u, token := some tok, isLoading := false }, s)
      | ParseOutcome.nullVal =>
        ({ st with user := none, token := some tok, isLoading := false }, s)
      | ParseOutcome.throws =>
        ({ st with isLoading := false },
         { s with user := none, access_token := none, refresh_token := none })
    else
      ({ st with isLoading := false }, s)
  | _, _ => ({ st with isLoading := false }, s)

/-- `login(userData, accessToken, refreshToken)`: sets the in-memory user and
token and writes all three storage keys. -/
def login (stringify : User → String) (userData : User)
    (accessToken refreshToken : String) (st : AuthState) : AuthState × Store :=
  ({ st with user := some userData, token := some accessToken },
   { user := some (stringify userData),
     access_token := some accessToken,
     refresh_token := some refreshToken })

/-- `logout()`: clears the in-memory user and token, removes all three
storage keys, and assigns `window.location.href = '/'`. -/
def logout (st : AuthState) (s : Store) : AuthState × Store × Nav :=
  ({ st with user := none, token := none },
   { s with user := none, access_token := none, refresh_token := none },
   hrefAssign "/")

/-- Whether `pat` occurs as a contiguous run at the front of `l`. -/
def leadsWith : List Char → List Char → Bool
  | _, [] => true
  | [], _ :: _ => false
  | a :: as, b :: bs => a == b && leadsWith as bs

/-- Whether `pat` occurs as a contiguous run anywhere in the list. -/
def hasSubList (pat : List Char) : List Char → Bool
  | [] => leadsWith [] pat
  | c :: cs => leadsWith (c :: cs) pat || hasSubList pat cs

/-- JS `String.prototype.includes`. -/
def strIncludes (s pat : String) : Bool :=
  hasSubList pat.toList s.toList

/-- The request interceptor's endpoint classification:
`config.url?.includes('/register/') || config.url?.includes('/login/')`
(an absent `url` gives `undefined`, which is falsy). -/
def isAuthEndpoint : Option String → Bool
  | some u => strIncludes u "/register/" || strIncludes u "/login/"
  | none => false

/-- An outgoing axios request config: its `url` and its
`Authorization` header. -/
structure RequestConfig where
  url : Option String
  authHeader : Option String
deriving DecidableEq, Repr

/-- The request interceptor: for a non-auth endpoint, when the stored access
token is truthy, sets the `Authorization` header to `Bearer <token>`;
otherwise returns the config unchanged. -/
def requestInterceptor (s : Store) (config : RequestConfig) : RequestConfig :=
  let isAuth := isAuthEndpoint config.url
  if !isAuth then
    match s.access_token with
    | some token =>
      if !(token == "") then { config with authHeader := some ("Bearer " ++ token) }
      else config
    | none => config
  else config

/-- A successful axios response (only its status matters here). -/
structure Response where
  status : Nat
deriving DecidableEq, Repr

/-- An axios error: `error.response?.status` (absent on network failures)
and the `_retry` flag of `error.config` (the original request). -/
structure AxiosError where
  status : Option Nat
  configRetry : Bool
deriving DecidableEq, Repr

/-- The response interceptor's error handler.  On a 401 whose original
request is not yet flagged `_retry`, it sets the flag; then, if a truthy
refresh token is stored, it removes all three storage keys and assigns
`window.location.href = '/login'`.  In every case it returns
`Promise.reject(error)`.  The result is the storage after handling, the
navigation performed (if any), and the settled promise. -/
def responseErrorHandler (e : AxiosError) (s : Store) :
    Store × Option Nav × Except AxiosError Response :=
  if e.status == some 401 && !e.configRetry then
    let retried := { e with configRetry := true }
    if truthy s.refresh_token then
      ({ s with access_token := none, refresh_token := none, user := none },
       some (hrefAssign "/login"), Except.error retried)
    else
      (s, none, Except.error retried)
  else
    (s, none, Except.error e)

/-- The full response interceptor: the success handler is
`(response) => response`; the error handler is `responseErrorHandler`. -/
def responseInterceptor (s : Store) :
    Except AxiosError Response → Store × Option Nav × Except AxiosError Response
  | Except.ok r => (s, none, Except.ok r)
  | Except.error e => responseErrorHandler e s

/-- Split a character list on newline characters. -/
def splitNl : List Char → List (List Char)
  | [] => [[]]
  | c :: cs =>
    if c == '\n' then [] :: splitNl cs
    else
      match splitNl cs with
      | [] => [[c]]
      | r :: rs => (c :: r) :: rs

/-- Read a nonempty run of decimal digits, accumulating into `acc`. -/
def natOfDigitsAux (acc : Nat) : List Char → Option Nat
  | [] => some acc
  | c :: cs => if c.isDigit then natOfDigitsAux (10 * acc + (c.toNat - 48)) cs else none

/-- Read an optionally-signed decimal integer from a character list. -/
def intOfChars : List Char → Option Int
  | [] => none
  | '-' :: cs =>
    match cs with
    | [] => none
    | _ => (natOfDigitsAux 0 cs).map (fun n => -(n : Int))
  | cs => (natOfDigitsAux 0 cs).map (fun n => (n : Int))

/-- Read a role name. -/
def roleOfString : String → Option Role
  | "student" => some Role.student
  | "provider" => some Role.provider
  | "administrator" => some Role.administrator
  | _ => none

/-- Concrete serialization of a user, instantiating the `stringify`
parameter in witnesses (a stand-in for `JSON.stringify`). -/
def demoStringify (u : User) : String :=
  toString u.id ++ "\n" ++ u.username ++ "\n" ++ u.email ++ "\n" ++
    (match u.role with
     | Role.student => "student"
     | Role.provider => "provider"
     | Role.administrator => "administrator")

/-- Concrete deserialization of a user in `demoStringify`'s format;
`none` on input not in that format. -/
def demoParse (s : String) : Option User :=
  match (splitNl s.toList).map String.mk with
  | [i, un, em, ro] =>
    match intOfChars i.toList, roleOfString ro with
    | some id, some r => some { id := id, username := un, email := em, role := r }
    | _, _ => none
  | _ => none

/-- A concrete user for witnesses. -/
def demoUser : User :=
  { id := 1, username := "alice", email := "alice@example.com", role := Role.student }

/-- Concrete model of `JSON.parse`, instantiating the `parse` parameter in
witnesses: the text `null` parses to JSON `null`, inputs in
`demoStringify`'s format parse to the encoded user, and everything else
throws. -/
def demoParseJS (s : String) : ParseOutcome :=
  if s == "null" then ParseOutcome.nullVal
  else
    match demoParse s with
    | some u => ParseOutcome.object u
    | none => ParseOutcome.throws

/-- States of the auth provider reachable through its operations: the
initial mount state, the restore effect, `login`, and `logout`. -/
inductive Reachable (parse : String → ParseOutcome) (stringify : User → String) :
    AuthState → Store → Prop where
  | mount (s : Store) : Reachable parse stringify initialAuthState s
  | restoreStep {st : AuthState} {s : Store} :
      Reachable parse stringify st s →
      Reachable parse stringify (restoreEffect parse st s).1 (restoreEffect parse st s).2
  | loginStep {st : AuthState} {s : Store} (u : User) (a r : String) :
      Reachable parse stringify st s →
      Reachable parse stringify (login stringify u a r st).1 (login stringify u a r st).2
  | logoutStep {st : AuthState} {s : Store} :
      Reachable parse stringify st s →
      Reachable parse stringify (logout st s).1 (logout st s).2.1

/-- The restore effect never sets the user without also setting the token. -/
theorem restoreEffect_keeps_user_implies_token (parse : String → ParseOutcome)
    (st : AuthState) (s : Store)
    (h : st.user.isSome = true → st.token.isSome = true) :
    (restoreEffect parse st s).1.user.isSome = true →
    (restoreEffect parse st s).1.token.isSome = true := by
  obtain ⟨su, sa, sr⟩ := s
  cases su with
  | none => simpa [restoreEffect] using h
  | some uStr =>
    cases sa with
    | none => simpa [restoreEffect] using h
    | some tok =>
      cases hc : (!(uStr == "") && !(tok == "")) with
      | false => simpa [restoreEffect, hc] using h
      | true =>
        cases hp : parse uStr with
        | throws => simpa [restoreEffect, hc, hp] using h
        | nullVal => simp [restoreEffect, hc, hp]
        | object u => simp [restoreEffect, hc, hp]

/-- C5: after `login(u, a, r)` the persistent store holds exactly the
serialization of `u`, the access token `a`, and the refresh token `r`, and
the in-memory context is authenticated with user `u` and token `a`. -/
theorem login_writes_store_and_state (stringify : User → String) (u : User)
    (a r : String) (st : AuthState) :
    (login stringify u a r st).2 =
      { user := some (stringify u), access_token := some a, refresh_token := some r } ∧
    (login stringify u a r st).1.user = some u ∧
    (login stringify u a r st).1.token = some a :=
  ⟨rfl, rfl, rfl⟩

/-- C6: after `logout()` from any state, the store holds none of the three
keys, a subsequent restore reports absence, the in-memory user and token are
cleared, and the browser is sent to the root path by a full reload. -/
theorem logout_clears_everything (parse : String → ParseOutcome)
    (st : AuthState) (s : Store) :
    (logout st s).2.1 = { user := none, access_token := none, refresh_token := none } ∧
    (restoreEffect parse initialAuthState (logout st s).2.1).1.user = none ∧
    (restoreEffect parse initialAuthState (logout st s).2.1).1.token = none ∧
    (logout st s).1.user = none ∧
    (logout st s).1.token = none ∧
    (logout st s).2.2.path = "/" ∧
    (logout st s).2.2.fullReload = true :=
  ⟨rfl, rfl, rfl, rfl, rfl, rfl, rfl⟩

/-- C9: for every error response the interceptor settles by rejecting with
the original error (same status); it never swallows the error, including
after the 401 clear-and-redirect handling. -/
theorem response_error_always_propagates (e : AxiosError) (s : Store) :
    ∃ e2, (responseInterceptor s (Except.error e)).2.2 = Except.error e2 ∧
      e2.status = e.status := by
  unfold responseInterceptor responseErrorHandler
  cases hc : (e.status == some 401 && !e.configRetry) with
  | false => exact ⟨e, by simp [hc], rfl⟩
  | true =>
    cases hr : truthy s.refresh_token with
    | false => exact ⟨{ e with configRetry := true }, by simp [hc, hr], rfl⟩
    | true => exact ⟨{ e with configRetry := true }, by simp [hc, hr], rfl⟩

/-- C10: if at startup exactly one of the persisted user and persisted
access token is present (the user value possibly malformed), the restore
effect leaves the store untouched and ends anonymous with `isLoading`
false. -/
theorem restore_single_key_untouched (parse : String → ParseOutcome) (s : Store)
    (h : (s.user.isSome ∧ s.access_token = none) ∨
         (s.user = none ∧ s.access_token.isSome)) :
    restoreEffect parse initialAuthState s =
      ({ user := none, token := none, isLoading := false }, s) := by
  obtain ⟨su, sa, sr⟩ := s
  rcases h with ⟨h1, h2⟩ | ⟨h1, h2⟩ <;> simp only at h1 h2
  · subst h2
    cases su <;> simp [restoreEffect, initialAuthState]
  · subst h1
    cases sa <;> simp [restoreEffect, initialAuthState]

/-- C10 witness: a malformed user value with no access token alongside. -/
theorem restore_single_key_untouched_witness :
    restoreEffect demoParseJS initialAuthState
        { user := some "garbage", access_token := none, refresh_token := none } =
      ({ user := none, token := none, isLoading := false },
       { user := some "garbage", access_token := none, refresh_token := none }) :=
  restore_single_key_untouched demoParseJS
    { user := some "garbage", access_token := none, refresh_token := none }
    (Or.inl ⟨by decide, rfl⟩)

/-- C2 counterexample: a malformed persisted user value is NOT always
wiped.  With no access token alongside, the restore effect leaves the
malformed user key in place; with a truthy token alongside but an empty
(still malformed — `JSON.parse` throws on it) user value, the store is also
left untouched.  Both contradict "removes all three storage keys" as
universally stated. -/
theorem restore_malformed_not_always_wiped :
    demoParseJS "garbage" = ParseOutcome.throws ∧
    (restoreEffect demoParseJS initialAuthState
        { user := some "garbage", access_token := none, refresh_token := none }).2 =
      { user := some "garbage", access_token := none, refresh_token := none } ∧
    (restoreEffect demoParseJS initialAuthState
        { user := some "garbage", access_token := none, refresh_token := none }).2.user ≠
      none ∧
    demoParseJS "" = ParseOutcome.throws ∧
    (restoreEffect demoParseJS initialAuthState
        { user := some "", access_token := some "tok", refresh_token := none }).2 =
      { user := some "", access_token := some "tok", refresh_token := none } :=
  ⟨rfl, rfl, by decide, rfl, rfl⟩

/-- C2 amended: for every nonempty malformed persisted user value (one on
which deserialization throws), when a truthy access token is persisted
alongside it, the startup restore reports absence (anonymous, `isLoading`
false) and removes all three storage keys; no parse error reaches the
caller. -/
theorem restore_malformed_with_token_wipes (parse : String → ParseOutcome)
    (s : Store) (uStr tok : String)
    (hu : s.user = some uStr) (ht : s.access_token = some tok)
    (hune : uStr ≠ "") (htne : tok ≠ "") (hp : parse uStr = ParseOutcome.throws) :
    restoreEffect parse initialAuthState s =
      ({ user := none, token := none, isLoading := false },
       { user := none, access_token := none, refresh_token := none }) := by
  obtain ⟨su, sa, sr⟩ := s
  simp only at hu ht
  subst hu; subst ht
  simp [restoreEffect, hune, htne, hp, initialAuthState]

/-- C2 amended witness. -/
theorem restore_malformed_with_token_wipes_witness :
    restoreEffect demoParseJS initialAuthState
        { user := some "garbage", access_token := some "tok", refresh_token := some "r" } =
      ({ user := none, token := none, isLoading := false },
       { user := none, access_token := none, refresh_token := none }) :=
  restore_malformed_with_token_wipes demoParseJS
    { user := some "garbage", access_token := some "tok", refresh_token := some "r" }
    "garbage" "tok" rfl rfl (by decide) (by decide) rfl

/-- C1: on a 401 for a not-yet-retried request with a truthy refresh token
stored, the handler removes all three keys, redirects to the login path, and
flags the request as retried; for the same request already flagged, a second
401 removes no keys and performs no redirect. -/
theorem response401_first_pass_handles_once (e : AxiosError) (s : Store)
    (hst : e.status = some 401) (hr : e.configRetry = false)
    (hrt : truthy s.refresh_token = true) :
    (responseErrorHandler e s).1 =
      { user := none, access_token := none, refresh_token := none } ∧
    (responseErrorHandler e s).2.1 = some (hrefAssign "/login") ∧
    (∃ e2, (responseErrorHandler e s).2.2 = Except.error e2 ∧ e2.configRetry = true) ∧
    (∀ s2, (responseErrorHandler { e with configRetry := true } s2).1 = s2 ∧
           (responseErrorHandler { e with configRetry := true } s2).2.1 = none) := by
  refine ⟨?_, ?_, ⟨{ e with configRetry := true }, ?_, rfl⟩, fun s2 => ⟨?_, ?_⟩⟩ <;>
    simp [responseErrorHandler, hst, hr, hrt]

/-- C1 witness. -/
theorem response401_first_pass_handles_once_witness :
    (responseErrorHandler { status := some 401, configRetry := false }
        { user := some "u", access_token := some "a", refresh_token := some "r" }).1 =
      { user := none, access_token := none, refresh_token := none } ∧
    (responseErrorHandler { status := some 401, configRetry := false }
        { user := some "u", access_token := some "a", refresh_token := some "r" }).2.1 =
      some (hrefAssign "/login") ∧
    (∃ e2, (responseErrorHandler { status := some 401, configRetry := false }
        { user := some "u", access_token := some "a", refresh_token := some "r" }).2.2 =
      Except.error e2 ∧ e2.configRetry = true) ∧
    (∀ s2, (responseErrorHandler { status := some 401, configRetry := true } s2).1 = s2 ∧
           (responseErrorHandler { status := some 401, configRetry := true } s2).2.1 = none) :=
  response401_first_pass_handles_once
    { status := some 401, configRetry := false }
    { user := some "u", access_token := some "a", refresh_token := some "r" }
    rfl rfl rfl

/-- C7: a non-bootstrap request with no stored access token goes out with no
authorization header; a 401 response with no stored refresh token removes no
keys, performs no redirect, and the error propagates with its status. -/
theorem no_token_request_and_401_propagates (s : Store) (url : String) (e : AxiosError)
    (hb : isAuthEndpoint (some url) = false)
    (hat : s.access_token = none) (hrt : s.refresh_token = none)
    (hst : e.status = some 401) :
    (requestInterceptor s { url := some url, authHeader := none }).authHeader = none ∧
    (responseErrorHandler e s).1 = s ∧
    (responseErrorHandler e s).2.1 = none ∧
    ∃ e2, (responseErrorHandler e s).2.2 = Except.error e2 ∧ e2.status = e.status := by
  refine ⟨by simp [requestInterceptor, hb, hat], ?_, ?_, ?_⟩ <;>
    cases hc : e.configRetry
  · simp [responseErrorHandler, hst, hc, hrt, truthy]
  · simp [responseErrorHandler, hst, hc]
  · simp [responseErrorHandler, hst, hc, hrt, truthy]
  · simp [responseErrorHandler, hst, hc]
  · exact ⟨{ e with configRetry := true },
      by simp [responseErrorHandler, hst, hc, hrt, truthy], rfl⟩
  · exact ⟨e, by simp [responseErrorHandler, hst, hc], rfl⟩

/-- C7 witness. -/
theorem no_token_request_and_401_propagates_witness :
    (requestInterceptor { user := none, access_token := none, refresh_token := none }
        { url := some "/rooms/", authHeader := none }).authHeader = none ∧
    (responseErrorHandler { status := some 401, configRetry := false }
        { user := none, access_token := none, refresh_token := none }).1 =
      { user := none, access_token := none, refresh_token := none } ∧
    (responseErrorHandler { status := some 401, configRetry := false }
        { user := none, access_token := none, refresh_token := none }).2.1 = none ∧
    ∃ e2, (responseErrorHandler { status := some 401, configRetry := false }
        { user := none, access_token := none, refresh_token := none }).2.2 =
      Except.error e2 ∧
      e2.status = ({ status := some 401, configRetry := false } : AxiosError).status :=
  no_token_request_and_401_propagates
    { user := none, access_token := none, refresh_token := none } "/rooms/"
    { status := some 401, configRetry := false } rfl rfl rfl rfl

/-- C3: a request to a bootstrap endpoint carries no authorization header
even with a token in the store; a request to a non-bootstrap endpoint with a
truthy stored token `t` carries exactly `Authorization: Bearer t`. -/
theorem request_header_by_endpoint_class (s : Store) (u1 u2 t : String)
    (h1 : isAuthEndpoint (some u1) = true)
    (h2 : isAuthEndpoint (some u2) = false)
    (ht : s.access_token = some t) (htne : t ≠ "") :
    requestInterceptor s { url := some u1, authHeader := none } =
      { url := some u1, authHeader := none } ∧
    (requestInterceptor s { url := some u2, authHeader := none }).authHeader =
      some ("Bearer " ++ t) := by
  constructor
  · simp [requestInterceptor, h1]
  · simp [requestInterceptor, h2, ht, htne]

/-- C3 witness. -/
theorem request_header_by_endpoint_class_witness :
    requestInterceptor { user := none, access_token := some "tok", refresh_token := none }
        { url := some "/register/student/", authHeader := none } =
      { url := some "/register/student/", authHeader := none } ∧
    (requestInterceptor { user := none, access_token := some "tok", refresh_token := none }
        { url := some "/rooms/", authHeader := none }).authHeader =
      some ("Bearer " ++ "tok") :=
  request_header_by_endpoint_class
    { user := none, access_token := some "tok", refresh_token := none }
    "/register/student/" "/rooms/" "tok" rfl rfl rfl (by decide)

/-- C4: restoring at startup from a store written by `login` yields the
authenticated state with the same user and access token, leaving the store
unchanged (save/restore round trip). -/
theorem login_restore_roundtrip (parse : String → ParseOutcome)
    (stringify : User → String) (u : User) (a r : String) (st : AuthState)
    (hp : parse (stringify u) = ParseOutcome.object u)
    (hu : stringify u ≠ "") (ha : a ≠ "") :
    restoreEffect parse initialAuthState (login stringify u a r st).2 =
      ({ user := some u, token := some a, isLoading := false },
       (login stringify u a r st).2) := by
  simp [restoreEffect, login, hp, hu, ha, initialAuthState]

/-- C4 witness. -/
theorem login_restore_roundtrip_witness :
    restoreEffect demoParseJS initialAuthState
        (login demoStringify demoUser "acc" "ref" initialAuthState).2 =
      ({ user := some demoUser, token := some "acc", isLoading := false },
       (login demoStringify demoUser "acc" "ref" initialAuthState).2) :=
  login_restore_roundtrip demoParseJS demoStringify demoUser "acc" "ref"
    initialAuthState rfl (by decide) (by decide)

/-- C8 counterexample: a reachable state with the token set and the user
absent.  Startup restore on a store whose persisted user entry is the text
`null` (which deserializes to JSON `null`, no exception) alongside a token
runs `setUser(null); setToken(savedToken)` — leaving exactly one of the two
fields set, refuting the both-or-neither invariant as stated. -/
theorem reachable_token_without_user :
    Reachable demoParseJS demoStringify
      (restoreEffect demoParseJS initialAuthState
        { user := some "null", access_token := some "tok", refresh_token := none }).1
      (restoreEffect demoParseJS initialAuthState
        { user := some "null", access_token := some "tok", refresh_token := none }).2 ∧
    (restoreEffect demoParseJS initialAuthState
        { user := some "null", access_token := some "tok", refresh_token := none }).1.user =
      none ∧
    (restoreEffect demoParseJS initialAuthState
        { user := some "null", access_token := some "tok", refresh_token := none }).1.token =
      some "tok" :=
  ⟨Reachable.restoreStep (Reachable.mount _), rfl, rfl⟩

/-- C8 amended: in every state reachable through the auth provider's
operations, the in-memory user is never set without the access token; the
converse direction fails only when startup restore reads a persisted user
entry deserializing to JSON `null` alongside a token. -/
theorem reachable_user_only_with_token (parse : String → ParseOutcome)
    (stringify : User → String) (st : AuthState) (s : Store)
    (h : Reachable parse stringify st s) :
    st.user.isSome = true → st.token.isSome = true := by
  induction h with
  | mount s => simp [initialAuthState]
  | restoreStep hr ih => exact restoreEffect_keeps_user_implies_token parse _ _ ih
  | loginStep u a r hr ih => simp [login]
  | logoutStep hr ih => simp [logout]

/-- C8 amended witness: in the reachable post-login state the user is set,
so the token is set. -/
theorem reachable_user_only_with_token_witness :
    (login demoStringify demoUser "acc" "ref" initialAuthState).1.token.isSome = true :=
  reachable_user_only_with_token demoParseJS demoStringify
    (login demoStringify demoUser "acc" "ref" initialAuthState).1
    (login demoStringify demoUser "acc" "ref" initialAuthState).2
    (Reachable.loginStep demoUser "acc" "ref"
      (Reachable.mount { user := none, access_token := none, refresh_token := none }))
    rfl
